import Mathlib

/-!
Verification of the sim-ai workflow engine against its specification.

Shallow embedding of the TypeScript sources:
* `apps/sim/executor/handlers/vyin/vyin-intent-router-handler.ts`
  (`VyinIntentRouterBlockHandler.execute` / `getTargetBlocks`),
* `apps/sim/app/api/internal/workflows/[id]/deployments/[version]/activate/route.ts`
  and the deployment-version PATCH/GET route (rename),
* `apps/sim/lib/auth/internal/embed-session.ts` (`storeCode` / `consumeCode`,
  in-memory branch),
* `apps/sim/lib/workflows/vyin-trigger.ts` (`getVyinChatTriggerPayload`),
* the GIM bot-list route (large-identifier quoting before `JSON.parse`).

JavaScript string values are modeled as `String`, optional / possibly-`undefined`
values as `Option`, JS objects used as flat maps as association lists, and the
database tables as lists of rows.  Machine-level concerns (event loop, network)
are out of the embedding; an external tool call is passed in as its result.
-/

namespace Sim

/-- JS `a || b` where `a` is a possibly-`undefined` string: both `undefined`
and `""` are falsy, so they fall through to the default. -/
def jsOr (a : Option String) (b : String) : String :=
  match a with
  | none => b
  | some s => if s = "" then b else s

/-- JS `\s` on the characters relevant here (ASCII whitespace model). -/
def jsWhitespace (c : Char) : Bool :=
  c == ' ' || c == '\t' || c == '\n' || c == '\r' || c == '\x0b' || c == '\x0c'

/-- JS `String.prototype.trim`: drop whitespace from both ends. -/
def jsTrim (s : String) : String :=
  ⟨((s.data.dropWhile jsWhitespace).reverse.dropWhile jsWhitespace).reverse⟩

/-- JS `String.prototype.toLowerCase` on one character (ASCII model). -/
def jsLowerChar (c : Char) : Char :=
  if c.isUpper then Char.ofNat (c.toNat + 32) else c

/-- JS `String.prototype.toLowerCase` (ASCII model). -/
def jsToLower (s : String) : String :=
  ⟨s.data.map jsLowerChar⟩

/-- Lookup in a JS object / `Map` modeled as an association list
(first binding wins, as keys are unique in a `Map`). -/
def alookup {α : Type} (m : List (String × α)) (k : String) : Option α :=
  (m.find? (fun p => p.fst == k)).map (·.snd)

/-! ## Graph model and execution context (`@/serializer/types`, `@/executor/types`) -/

/-- `SerializedBlock.metadata`: `id` is the block-type tag used for dispatch. -/
structure BlockMetadata where
  id : String
  name : Option String
  description : Option String
  deriving Repr, DecidableEq

/-- `SerializedBlock.config`: the `tool` id and the flat resolved `params` map. -/
structure BlockConfigShape where
  tool : Option String
  params : List (String × String)
  deriving Repr, DecidableEq

/-- A serialized workflow block. -/
structure SerializedBlock where
  id : String
  metadata : Option BlockMetadata
  config : BlockConfigShape
  inputs : List (String × String)
  deriving Repr, DecidableEq

/-- A workflow edge (`connections` entry): `source` and `target` block ids. -/
structure Connection where
  source : String
  target : String
  deriving Repr, DecidableEq

/-- The serialized workflow carried by the execution context. -/
structure SerializedWorkflow where
  blocks : List SerializedBlock
  connections : List Connection
  deriving Repr, DecidableEq

/-- A recorded block output: a flat field map (values modeled as strings). -/
abbrev BlockOutput := List (String × String)

/-- Per-run execution context: static workflow plus the block state store.
`blockStates` maps a block id to its recorded output
(`context.blockStates.get(id)?.output`). -/
structure ExecutionContext where
  workflowId : String
  workspaceId : Option String
  workflow : Option SerializedWorkflow
  blockStates : List (String × BlockOutput)
  deriving Repr, DecidableEq

/-! ## `lib/workflows/vyin-trigger.ts` -/

/-- `VyinChatTriggerPayload`: all fields optional. -/
structure VyinChatTriggerPayload where
  content : Option String
  api_token : Option String
  sender_id : Option String
  app_id : Option String
  channel_url : Option String
  bot_user_id : Option String
  bot_uid : Option String
  bot_nickname : Option String
  bot_profile_url : Option String
  bot_character : Option String
  bot_metadata : Option String
  deriving Repr, DecidableEq

/-- The empty object `{}` returned when the trigger payload is absent. -/
def emptyVyinPayload : VyinChatTriggerPayload :=
  ⟨none, none, none, none, none, none, none, none, none, none, none⟩

/-- `getVyinChatTriggerPayload` from `lib/workflows/vyin-trigger.ts`:
find the `vyin_chatbot` block, read its recorded output from the block state
store, and project the eleven payload fields; `{}` when anything is absent. -/
def getVyinChatTriggerPayload (ctx : ExecutionContext) : VyinChatTriggerPayload :=
  match ctx.workflow with
  | none => emptyVyinPayload
  | some wf =>
    match wf.blocks.find? (fun b => b.metadata.map (·.id) == some "vyin_chatbot") with
    | none => emptyVyinPayload
    | some vyin =>
      match alookup ctx.blockStates vyin.id with
      | none => emptyVyinPayload
      | some out =>
        { content := alookup out "content"
          api_token := alookup out "api_token"
          sender_id := alookup out "sender_id"
          app_id := alookup out "app_id"
          channel_url := alookup out "channel_url"
          bot_user_id := alookup out "bot_user_id"
          bot_uid := alookup out "bot_uid"
          bot_nickname := alookup out "bot_nickname"
          bot_profile_url := alookup out "bot_profile_url"
          bot_character := alookup out "bot_character"
          bot_metadata := alookup out "bot_metadata" }

/-! ## `lib/auth/internal/embed-session.ts` (in-memory branch) -/

/-- `inMemoryCodes`: a JS `Map` from key to `{value, expiry}` (expiry in ms). -/
abbrev CodeMap := List (String × (String × Nat))

/-- exported constant `CODE_TTL_SECONDS`. -/
def CODE_TTL_SECONDS : Nat := 120

/-- JS `Map.set`: replace the binding in place if the key exists, else append. -/
def mapSet (m : CodeMap) (k : String) (v : String × Nat) : CodeMap :=
  match m with
  | [] => [(k, v)]
  | (k', v') :: rest => if k' = k then (k, v) :: rest else (k', v') :: mapSet rest k v

/-- JS `Map.delete`. -/
def mapDelete (m : CodeMap) (k : String) : CodeMap :=
  m.filter (fun p => p.fst != k)

/-- `storeCode(code, payload, ttlSeconds)` at time `now` (ms): store the
serialized payload with expiry `now + ttlSeconds * 1000` (the `JSON.stringify`
round trip is the identity on the modeled payload string). -/
def storeCode (code payload : String) (ttlSeconds : Nat) (now : Nat) (m : CodeMap) : CodeMap :=
  mapSet m ("embed-code:" ++ code) (payload, now + ttlSeconds * 1000)

/-- `consumeCode(code)` at time `now` (ms): look the entry up (absent gives
`null`), delete it, return `null` when expired, else the parsed payload. -/
def consumeCode (code : String) (now : Nat) (m : CodeMap) : Option String × CodeMap :=
  let key := "embed-code:" ++ code
  match alookup m key with
  | none => (none, m)
  | some entry =>
    let m' := mapDelete m key
    if entry.snd < now then (none, m') else (some entry.fst, m')

/-! ## `executor/handlers/vyin/vyin-intent-router-handler.ts` -/

/-- A candidate descriptor produced by `getTargetBlocks`:
`{id, type, title, description, subBlocks, currentState}`. -/
structure TargetBlockInfo where
  id : String
  type : Option String
  title : Option String
  description : Option String
  subBlocks : List (String × String)
  currentState : Option BlockOutput
  deriving Repr, DecidableEq

/-- The agent-block system-prompt extraction inside `getTargetBlocks`:
`config?.params?.systemPrompt || inputs?.systemPrompt || ''`, re-checked
against `inputs` when still falsy (only for blocks whose metadata id is
`agent`; otherwise `''`). -/
def extractSystemPrompt (tb : SerializedBlock) : String :=
  if tb.metadata.map (·.id) == some "agent" then
    let sp := jsOr (alookup tb.config.params "systemPrompt")
      (jsOr (alookup tb.inputs "systemPrompt") "")
    if sp = "" then jsOr (alookup tb.inputs "systemPrompt") "" else sp
  else ""

/-- JS object spread `{...config.params, systemPrompt}`: the `systemPrompt`
key is overridden (modeled by prepending, as `alookup` takes the first hit). -/
def buildSubBlocks (tb : SerializedBlock) : List (String × String) :=
  ("systemPrompt", extractSystemPrompt tb) ::
    tb.config.params.filter (fun p => p.fst != "systemPrompt")

/-- The descriptor built for one resolved target block. -/
def mkTargetInfo (tb : SerializedBlock) (ctx : ExecutionContext) : TargetBlockInfo :=
  { id := tb.id
    type := tb.metadata.map (·.id)
    title := tb.metadata.bind (·.name)
    description := tb.metadata.bind (·.description)
    subBlocks := buildSubBlocks tb
    currentState := alookup ctx.blockStates tb.id }

/-- The `.map` body inside `getTargetBlocks`: resolve each connection's
target block left to right, throwing at the first missing one (the JS `.map`
callback throws), and build a descriptor per connection. -/
def resolveTargets (wf : SerializedWorkflow) (ctx : ExecutionContext) :
    List Connection → Except String (List TargetBlockInfo)
  | [] => .ok []
  | conn :: rest =>
    match wf.blocks.find? (fun b => b.id == conn.target) with
    | none => .error ("Target block " ++ conn.target ++ " not found")
    | some tb => do
      let infos ← resolveTargets wf ctx rest
      .ok (mkTargetInfo tb ctx :: infos)

/-- `VyinIntentRouterBlockHandler.getTargetBlocks`: collect this router's
outgoing connections, resolve each target block (throwing when one is
missing), build a descriptor per connection, and drop descriptors whose id is
a direct predecessor of the router.  Returns `none` when the context has no
workflow (`context.workflow?.connections` short-circuits to `undefined`). -/
def getTargetBlocks (block : SerializedBlock) (ctx : ExecutionContext) :
    Except String (Option (List TargetBlockInfo)) :=
  match ctx.workflow with
  | none => .ok none
  | some wf => do
    let previousBlockIds :=
      (wf.connections.filter (fun conn => conn.target == block.id)).map (·.source)
    let infos ← resolveTargets wf ctx
      (wf.connections.filter (fun conn => conn.source == block.id))
    .ok (some (infos.filter (fun info => !(previousBlockIds.contains info.id))))

/-- One keyword routing rule from `inputs.intentRoutes`. -/
structure IntentRoute where
  routeTo : Option String
  keywords : Option String
  deriving Repr, DecidableEq

/-- The router handler's `inputs` record. -/
structure RouterInputs where
  botProfile : Option String
  userInput : Option String
  intentRoutes : Option (List IntentRoute)
  deriving Repr, DecidableEq

/-- The result of the one external `executeTool` call:
`{success, output?.response, error}`. -/
structure ToolResult where
  success : Bool
  response : Option String
  error : Option String
  deriving Repr, DecidableEq

/-- The errors the router handler throws, one constructor per `throw` site. -/
inductive RouterError where
  | targetNotFound (msg : String)
  | toolNotFound (toolId : String)
  | botProfileRequired
  | userInputRequired
  | missingAppId
  | missingApiToken
  | executionFailed (msg : String)
  | invalidRoutingDecision (chosenBlockId : String)
  deriving Repr, DecidableEq

/-- `output.selectedPath` of a successful routing decision. -/
structure SelectedPath where
  blockId : String
  blockType : String
  blockTitle : String
  deriving Repr, DecidableEq

/-- The router's block output on success. -/
structure RouterOutput where
  userInput : String
  selectedPath : SelectedPath
  deriving Repr, DecidableEq

/-- `String(result.output?.response || '').trim().toLowerCase()`. -/
def normalizeResponse (r : ToolResult) : String :=
  jsToLower (jsTrim (r.response.getD ""))

/-- `VyinIntentRouterBlockHandler.execute`.  `tools` is the set of registered
tool ids (`getTool`); the single external `executeTool` call is passed in as
its result `toolResult`.  Every guard follows the source order: target-block
resolution, tool lookup, trigger payload extraction, required-input checks,
gateway failure check, then the exact-match routing decision. -/
def routerExecute (block : SerializedBlock) (inputs : RouterInputs)
    (ctx : ExecutionContext) (tools : List String) (toolResult : ToolResult) :
    Except RouterError RouterOutput := do
  let targetBlocks ← (getTargetBlocks block ctx).mapError RouterError.targetNotFound
  let toolId := jsOr block.config.tool "vyin_bot_assistant"
  if !(tools.contains toolId) then
    throw (.toolNotFound toolId)
  let vyin := getVyinChatTriggerPayload ctx
  let appIdFromTrigger := jsTrim (vyin.app_id.getD "")
  let apiTokenFromTrigger := jsTrim (vyin.api_token.getD "")
  let botProfile := jsTrim (jsOr inputs.botProfile "")
  let userInput := jsOr inputs.userInput ""
  if botProfile = "" then throw .botProfileRequired
  if userInput = "" then throw .userInputRequired
  if appIdFromTrigger = "" then throw .missingAppId
  if apiTokenFromTrigger = "" then throw .missingApiToken
  if !toolResult.success then
    throw (.executionFailed (jsOr toolResult.error "vyin_bot_assistant failed"))
  let responseText := normalizeResponse toolResult
  let chosenBlockId := responseText
  match (targetBlocks.getD []).find? (fun b => b.id == chosenBlockId) with
  | none => throw (.invalidRoutingDecision chosenBlockId)
  | some chosenBlock =>
    .ok { userInput := jsOr inputs.userInput ""
          selectedPath :=
            { blockId := chosenBlock.id
              blockType := jsOr chosenBlock.type "unknown"
              blockTitle := jsOr chosenBlock.title "Untitled Block" } }

/-! ## Deployment version store
(`.../deployments/[version]/activate/route.ts` and the deployment-version
PATCH route).  Tables are modeled as lists of rows; a drizzle `update ...
set ... where ...` is a map over the rows; `db.transaction` commits the new
state on success and keeps the old state when the callback throws. -/

/-- A `workflowDeploymentVersion` row (the fields the routes touch). -/
structure DeploymentRow where
  rowId : String
  workflowId : String
  version : Int
  name : String
  isActive : Bool
  deriving Repr, DecidableEq

/-- A `workflow` row (the fields the activate route touches). -/
structure WorkflowRow where
  id : String
  isDeployed : Bool
  deployedAt : Option Nat
  deriving Repr, DecidableEq

/-- The database state the deployment routes read and write. -/
structure DbState where
  deployments : List DeploymentRow
  workflows : List WorkflowRow
  deriving Repr, DecidableEq

/-- Step (a) of the activate transaction:
`update workflowDeploymentVersion set isActive = false
 where workflowId = id and isActive = true`. -/
def clearActiveRows (wid : String) (rows : List DeploymentRow) : List DeploymentRow :=
  rows.map (fun r =>
    if r.workflowId = wid ∧ r.isActive = true then { r with isActive := false } else r)

/-- Step (b) of the activate transaction:
`update workflowDeploymentVersion set isActive = true
 where workflowId = id and version = versionNum`. -/
def setActiveRows (wid : String) (v : Int) (rows : List DeploymentRow) : List DeploymentRow :=
  rows.map (fun r =>
    if r.workflowId = wid ∧ r.version = v then { r with isActive := true } else r)

/-- The `returning({id})` list of step (b): the rows the update matched. -/
def activateMatchedRows (wid : String) (v : Int) (rows : List DeploymentRow) :
    List DeploymentRow :=
  rows.filter (fun r => r.workflowId == wid && r.version == v)

/-- Step (c): `update workflow set isDeployed = true, deployedAt = now
 where workflow.id = id`. -/
def markDeployed (wid : String) (now : Nat) (rows : List WorkflowRow) : List WorkflowRow :=
  rows.map (fun w =>
    if w.id = wid then { w with isDeployed := true, deployedAt := some now } else w)

/-- The body of `db.transaction` in the activate route: clear the active
rows, set the target row active (throwing `Deployment version not found`
when the update matched nothing), then mark the workflow deployed. -/
def activateTx (wid : String) (v : Int) (now : Nat) (s : DbState) :
    Except String DbState :=
  let s1 : DbState := { s with deployments := clearActiveRows wid s.deployments }
  let updated := activateMatchedRows wid v s1.deployments
  if updated.length = 0 then
    .error "Deployment version not found"
  else
    let s2 : DbState := { s1 with deployments := setActiveRows wid v s1.deployments }
    .ok { s2 with workflows := markDeployed wid now s2.workflows }

/-- `db.transaction` rollback semantics: an error keeps the prior state. -/
def runActivate (wid : String) (v : Int) (now : Nat) (s : DbState) : DbState :=
  match activateTx wid v now s with
  | .ok s2 => s2
  | .error _ => s

/-- An HTTP response: status code and a body message. -/
structure HttpResponse where
  status : Nat
  body : String
  deriving Repr, DecidableEq

/-- Modelled from the spec: `createErrorResponse` is imported from
`@/app/api/workflows/utils`, which is not among the provided sources; per the
spec's HTTP surface it produces a response whose status is the given status
code and whose body carries the given error message. -/
def createErrorResponse (message : String) (status : Nat) : HttpResponse :=
  { status := status, body := message }

/-- Modelled from the spec: `createSuccessResponse` (same missing module)
produces a 200 response carrying the given body. -/
def createSuccessResponse (body : String) : HttpResponse :=
  { status := 200, body := body }

/-- The activate route handler after authentication and version parsing:
run the transaction; on success answer 200, on a thrown error answer
`createErrorResponse(error.message, 500)` (the route's catch-all). -/
def activateRoute (wid : String) (v : Int) (now : Nat) (s : DbState) :
    DbState × HttpResponse :=
  match activateTx wid v now s with
  | .ok s2 => (s2, createSuccessResponse "success")
  | .error msg => (s, createErrorResponse msg 500)

/-- The deployment-version PATCH (rename) handler after authentication,
access checks and body parsing (`name` is already a string): validate the
trimmed name (400 on empty or over 100 characters), run the update, answer
404 when it matched no row, else 200 with the new name. -/
def renameRoute (wid : String) (v : Int) (name : String) (s : DbState) :
    DbState × HttpResponse :=
  let trimmedName := jsTrim name
  if trimmedName.length = 0 then
    (s, createErrorResponse "Name cannot be empty" 400)
  else if trimmedName.length > 100 then
    (s, createErrorResponse "Name must be 100 characters or less" 400)
  else
    let updatedRows := s.deployments.map (fun r =>
      if r.workflowId = wid ∧ r.version = v then { r with name := trimmedName } else r)
    let matched := s.deployments.filter (fun r => r.workflowId == wid && r.version == v)
    match matched with
    | [] => (s, createErrorResponse "Deployment version not found" 404)
    | _ :: _ =>
      ({ s with deployments := updatedRows }, createSuccessResponse trimmedName)

/-- Number of active deployment rows of one workflow. -/
def countActive (rows : List DeploymentRow) (wid : String) : Nat :=
  rows.countP (fun r => r.workflowId == wid && r.isActive)

/-! ## GIM bot-list route: large-identifier quoting before `JSON.parse`
(`responseText.replace(/"bot_id":\s*(\d+)/g, ...)` and the same for
`license_id`).  The global regex replace is embedded as a left-to-right
scanner over the character list: at each position, try to match the literal
key text, then greedily skip whitespace, then greedily take the digit run
(the match needs at least one digit); a match is rewritten with the digit
run wrapped in quotes (the skipped whitespace is dropped, as the capture
group holds the digits only), and scanning resumes after the digits. -/

/-- Match a literal character sequence at the head of the input, returning
the remainder on success. -/
def matchLiteral : List Char → List Char → Option (List Char)
  | [], l => some l
  | _ :: _, [] => none
  | k :: ks, c :: cs => if c = k then matchLiteral ks cs else none

/-- One global-regex replace pass `text.replace(/KEY\s*(\d+)/g, 'KEY"$1"')`
where `KEY` is the literal `key`. -/
def quoteIntField (key : List Char) : List Char → List Char
  | [] => []
  | c :: cs =>
    match h : matchLiteral key (c :: cs) with
    | some rest =>
      if hds : (rest.dropWhile jsWhitespace).takeWhile Char.isDigit = [] then
        c :: quoteIntField key cs
      else
        key ++ ('"' :: (rest.dropWhile jsWhitespace).takeWhile Char.isDigit) ++
          ('"' :: quoteIntField key ((rest.dropWhile jsWhitespace).dropWhile Char.isDigit))
    | none => c :: quoteIntField key cs
  termination_by l => l.length
  decreasing_by
  · simp
  · have key_len : ∀ (ks l r : List Char), matchLiteral ks l = some r →
        ks.length + r.length = l.length := by
      intro ks
      induction ks with
      | nil => intro l r hr; simp [matchLiteral] at hr; simp [hr]
      | cons k ks ih =>
        intro l r hr
        cases l with
        | nil => simp [matchLiteral] at hr
        | cons c cs =>
          simp only [matchLiteral] at hr
          split at hr
          · have := ih cs r hr
            simp only [List.length_cons]
            omega
          · exact absurd hr (by simp)
    have hlen := key_len key (c :: cs) rest h
    have h1 := congrArg List.length (List.takeWhile_append_dropWhile
      (p := Char.isDigit) (l := rest.dropWhile jsWhitespace))
    simp only [List.length_append] at h1
    have h2 := congrArg List.length (List.takeWhile_append_dropWhile
      (p := jsWhitespace) (l := rest))
    simp only [List.length_append] at h2
    have h3 : 0 < ((rest.dropWhile jsWhitespace).takeWhile Char.isDigit).length :=
      List.length_pos.mpr hds
    simp only [List.length_cons] at hlen ⊢
    omega
  · simp

/-- `"bot_id":` as a character list. -/
def botIdKey : List Char := "\"bot_id\":".data

/-- `"license_id":` as a character list. -/
def licenseIdKey : List Char := "\"license_id\":".data

/-- The route's `fixedResponseText`: the `bot_id` replace, then the
`license_id` replace on its result. -/
def fixGimResponseText (s : String) : String :=
  ⟨quoteIntField licenseIdKey (quoteIntField botIdKey s.data)⟩

/-- A definite failure of `matchLiteral key b` inside `b` itself: some
character of `b` differs from the literal before `b` runs out, so the match
fails for every continuation of `b`. -/
def definitelyMismatch : List Char → List Char → Bool
  | [], _ => false
  | _ :: _, [] => false
  | k :: ks, c :: cs => if c = k then definitelyMismatch ks cs else true

/-- A text segment the replace pass walks over unchanged: every match
attempt starting inside the segment fails inside it (the position either
does not carry the key's first character, or mismatches the literal before
the segment ends).  Checkable by `decide` on concrete segments. -/
def keyCleanSeg (key : List Char) : List Char → Bool
  | [] => true
  | c :: cs =>
    (match key with
     | [] => false
     | k :: _ => if c = k then definitelyMismatch key (c :: cs) else true)
    && keyCleanSeg key cs

/-- Modeled GIM bot-list body, text before the `bot_id` field. -/
def gimSegA : String :=
  "\x7b\"count\": 1, \"previous\": null, \"next\": null, \"results\": [\x7b"

/-- Modeled GIM bot-list body, text between the `bot_id` and `license_id`
values (the other fields the route's interface declares). -/
def gimSegB : String :=
  ", \"bot_userid\": \"u1\", \"bot_nickname\": \"assistant\", \"bot_profile_url\": \"https://example.com/a.png\", \"bot_engine_is_built_in\": false, \"created_at\": 1700000000, "

/-- Modeled GIM bot-list body, text after the `license_id` value. -/
def gimSegC : String := "\x7d]\x7d"

/-- A GIM bot-list body with `bot_id` and `license_id` as unquoted integer
literals (the upstream API's shape). -/
def gimBotsBody (botId licenseId : String) : String :=
  gimSegA ++ "\"bot_id\": " ++ botId ++ gimSegB ++ "\"license_id\": " ++ licenseId ++ gimSegC

/-- The same body after the route's quoting fix: both identifiers are JSON
string literals carrying the exact same digit strings (the whitespace after
the colon is consumed by the regex and dropped). -/
def gimBotsBodyQuoted (botId licenseId : String) : String :=
  gimSegA ++ "\"bot_id\":\"" ++ botId ++ "\"" ++ gimSegB
    ++ "\"license_id\":\"" ++ licenseId ++ "\"" ++ gimSegC

/-! ## Helper lemmas -/

theorem alookup_mapSet_self (m : CodeMap) (k : String) (v : String × Nat) :
    alookup (mapSet m k v) k = some v := by
  induction m with
  | nil => simp [mapSet, alookup]
  | cons p rest ih =>
    obtain ⟨k', v'⟩ := p
    by_cases h : k' = k
    · simp [mapSet, h, alookup]
    · simpa [mapSet, h, alookup, List.find?_cons] using ih

theorem alookup_mapDelete_self (m : CodeMap) (k : String) :
    alookup (mapDelete m k) k = none := by
  induction m with
  | nil => simp [mapDelete, alookup]
  | cons p rest ih =>
    obtain ⟨k', v'⟩ := p
    by_cases h : k' = k
    · simpa [mapDelete, h, alookup] using ih
    · simpa [mapDelete, h, alookup, List.find?_cons] using ih

/-! ## C9 — `consumeCode` is one-shot -/

/-- **C9.** For every code stored via `storeCode`, `consumeCode` is one-shot:
a first call before the TTL expired returns the stored payload and removes
the entry; any call on a store without the entry (in particular any
subsequent call) returns `null`; an expired code returns `null`.  The
embedding is a total function, so no call throws. -/
theorem consume_code_one_shot (code payload : String) (ttl t0 t1 : Nat) (m : CodeMap)
    (hfresh : ¬ (t0 + ttl * 1000 < t1)) :
    (consumeCode code t1 (storeCode code payload ttl t0 m)).fst = some payload
    ∧ alookup (consumeCode code t1 (storeCode code payload ttl t0 m)).snd
        ("embed-code:" ++ code) = none
    ∧ (∀ t2, (consumeCode code t2
        (consumeCode code t1 (storeCode code payload ttl t0 m)).snd).fst = none)
    ∧ (∀ t2 m0, alookup m0 ("embed-code:" ++ code) = none →
        (consumeCode code t2 m0).fst = none)
    ∧ (∀ t2, t0 + ttl * 1000 < t2 →
        (consumeCode code t2 (storeCode code payload ttl t0 m)).fst = none) := by
  have hget := alookup_mapSet_self m ("embed-code:" ++ code) (payload, t0 + ttl * 1000)
  have hdel := alookup_mapDelete_self (storeCode code payload ttl t0 m) ("embed-code:" ++ code)
  refine ⟨?_, ?_, ?_, ?_, ?_⟩
  · simp [consumeCode, storeCode] at hget ⊢
    simp [hget, hfresh]
  · simp [consumeCode, storeCode] at hget hdel ⊢
    simp [hget, hfresh, hdel]
  · intro t2
    simp [consumeCode, storeCode] at hget hdel ⊢
    simp [hget, hfresh, hdel]
  · intro t2 m0 h0
    simp [consumeCode, h0]
  · intro t2 h2
    simp [consumeCode, storeCode] at hget ⊢
    simp [hget, h2]

/-- Witness for C9 at concrete inputs. -/
theorem consume_code_one_shot_witness :
    ¬ ((0 : Nat) + 120 * 1000 < 5)
    ∧ (consumeCode "c" 5 (storeCode "c" "p" 120 0 [])).fst = some "p" := by
  refine ⟨by decide, ?_⟩
  exact (consume_code_one_shot "c" "p" 120 0 5 [] (by decide)).1

/-! ## C10 — `getVyinChatTriggerPayload` is total and projects eleven fields -/

/-- **C10.** `getVyinChatTriggerPayload` is total (the embedding is a plain
function, mirroring a source with no `throw`): it returns `{}` when the
context has no workflow, when no block has metadata id `vyin_chatbot`, or
when that block has no recorded output; otherwise it returns exactly the
eleven named fields projected from the recorded output. -/
theorem vyin_trigger_payload_total (ctx : ExecutionContext) :
    (ctx.workflow = none → getVyinChatTriggerPayload ctx = emptyVyinPayload)
    ∧ (∀ wf, ctx.workflow = some wf →
        (∀ b ∈ wf.blocks, ¬ (b.metadata.map (·.id) = some "vyin_chatbot")) →
        getVyinChatTriggerPayload ctx = emptyVyinPayload)
    ∧ (∀ wf vyin, ctx.workflow = some wf →
        wf.blocks.find? (fun b => b.metadata.map (·.id) == some "vyin_chatbot")
          = some vyin →
        alookup ctx.blockStates vyin.id = none →
        getVyinChatTriggerPayload ctx = emptyVyinPayload)
    ∧ (∀ wf vyin out, ctx.workflow = some wf →
        wf.blocks.find? (fun b => b.metadata.map (·.id) == some "vyin_chatbot")
          = some vyin →
        alookup ctx.blockStates vyin.id = some out →
        getVyinChatTriggerPayload ctx =
          { content := alookup out "content"
            api_token := alookup out "api_token"
            sender_id := alookup out "sender_id"
            app_id := alookup out "app_id"
            channel_url := alookup out "channel_url"
            bot_user_id := alookup out "bot_user_id"
            bot_uid := alookup out "bot_uid"
            bot_nickname := alookup out "bot_nickname"
            bot_profile_url := alookup out "bot_profile_url"
            bot_character := alookup out "bot_character"
            bot_metadata := alookup out "bot_metadata" }) := by
  refine ⟨?_, ?_, ?_, ?_⟩
  · intro h
    simp [getVyinChatTriggerPayload, h]
  · intro wf hwf hnone
    have hfind : wf.blocks.find?
        (fun b => b.metadata.map (·.id) == some "vyin_chatbot") = none := by
      rw [List.find?_eq_none]
      intro b hb
      simpa using hnone b hb
    simp [getVyinChatTriggerPayload, hwf, hfind]
  · intro wf vyin hwf hfind hout
    simp [getVyinChatTriggerPayload, hwf, hfind, hout]
  · intro wf vyin out hwf hfind hout
    simp [getVyinChatTriggerPayload, hwf, hfind, hout]

/-- Witness for C10 at concrete inputs, one per case. -/
theorem vyin_trigger_payload_total_witness :
    (getVyinChatTriggerPayload
      { workflowId := "w", workspaceId := none, workflow := none, blockStates := [] }
        = emptyVyinPayload)
    ∧ (getVyinChatTriggerPayload
      { workflowId := "w", workspaceId := none
        workflow := some { blocks := [⟨"T", some ⟨"starter", none, none⟩, ⟨none, []⟩, []⟩]
                           connections := [] }
        blockStates := [] } = emptyVyinPayload)
    ∧ (getVyinChatTriggerPayload
      { workflowId := "w", workspaceId := none
        workflow := some { blocks := [⟨"T", some ⟨"vyin_chatbot", none, none⟩, ⟨none, []⟩, []⟩]
                           connections := [] }
        blockStates := [] } = emptyVyinPayload)
    ∧ (getVyinChatTriggerPayload
      { workflowId := "w", workspaceId := none
        workflow := some { blocks := [⟨"T", some ⟨"vyin_chatbot", none, none⟩, ⟨none, []⟩, []⟩]
                           connections := [] }
        blockStates := [("T", [("content", "hello"), ("app_id", "app1")])] }
        = { content := some "hello", api_token := none, sender_id := none
            app_id := some "app1", channel_url := none, bot_user_id := none
            bot_uid := none, bot_nickname := none, bot_profile_url := none
            bot_character := none, bot_metadata := none }) := by
  refine ⟨?_, ?_, ?_, ?_⟩
  · exact (vyin_trigger_payload_total _).1 rfl
  · exact (vyin_trigger_payload_total _).2.1 _ rfl (by decide)
  · exact (vyin_trigger_payload_total _).2.2.1 _
      ⟨"T", some ⟨"vyin_chatbot", none, none⟩, ⟨none, []⟩, []⟩ rfl (by decide) (by decide)
  · have h := (vyin_trigger_payload_total
      { workflowId := "w", workspaceId := none
        workflow := some { blocks := [⟨"T", some ⟨"vyin_chatbot", none, none⟩, ⟨none, []⟩, []⟩]
                           connections := [] }
        blockStates := [("T", [("content", "hello"), ("app_id", "app1")])] }).2.2.2
      _ ⟨"T", some ⟨"vyin_chatbot", none, none⟩, ⟨none, []⟩, []⟩
      [("content", "hello"), ("app_id", "app1")] rfl (by decide) (by decide)
    rw [h]
    decide

/-! ## C1 — router candidate set -/

theorem resolveTargets_ok (wf : SerializedWorkflow) (ctx : ExecutionContext)
    (conns : List Connection)
    (h : ∀ conn ∈ conns, ∃ tb ∈ wf.blocks, tb.id = conn.target) :
    ∃ infos, resolveTargets wf ctx conns = Except.ok infos
      ∧ infos.map (·.id) = conns.map (·.target) := by
  induction conns with
  | nil => exact ⟨[], rfl, by simp⟩
  | cons conn rest ih =>
    obtain ⟨tb0, htb0, hid0⟩ := h conn (by simp)
    have hfs : (wf.blocks.find? (fun b => b.id == conn.target)).isSome :=
      List.find?_isSome.mpr ⟨tb0, htb0, by simp [hid0]⟩
    obtain ⟨tb, htb⟩ := Option.isSome_iff_exists.mp hfs
    have hidtb : tb.id = conn.target := by
      have := List.find?_some htb
      simpa using this
    obtain ⟨infos, hinfos, hids⟩ := ih (fun c hc => h c (by simp [hc]))
    refine ⟨mkTargetInfo tb ctx :: infos, ?_, ?_⟩
    · simp only [resolveTargets, htb, hinfos]
      rfl
    · simp [hids, mkTargetInfo, hidtb]

theorem map_id_filter (prev : List String) (infos : List TargetBlockInfo) :
    (infos.filter (fun info => !(prev.contains info.id))).map (·.id)
      = (infos.map (·.id)).filter (fun t => !(prev.contains t)) := by
  induction infos with
  | nil => rfl
  | cons i rest ih =>
    by_cases hmem : i.id ∈ prev
    · simp [hmem]
      simpa using ih
    · simp [hmem]
      simpa using ih

/-- **C1 counterexample.** The claim says duplicate candidate ids are
collapsed.  In the code they are not: a router `A` with outgoing edges
`A→B`, `A→B` (and predecessor `X`) gets the descriptor list `[B, B]` —
the candidate id `B` appears twice, not at most once. -/
theorem router_candidates_duplicates_not_collapsed_cex :
    ((getTargetBlocks
        ⟨"A", some ⟨"vyin_intent_router", some "Router", none⟩, ⟨none, []⟩, []⟩
        { workflowId := "wf", workspaceId := none
          workflow := some
            { blocks :=
                [⟨"A", some ⟨"vyin_intent_router", some "Router", none⟩, ⟨none, []⟩, []⟩,
                 ⟨"B", some ⟨"agent", some "B", none⟩, ⟨none, []⟩, []⟩,
                 ⟨"X", some ⟨"starter", some "X", none⟩, ⟨none, []⟩, []⟩]
              connections := [⟨"X", "A"⟩, ⟨"A", "B"⟩, ⟨"A", "B"⟩] }
          blockStates := [] }).map (fun o => (o.getD []).map (·.id))
      = Except.ok ["B", "B"])
    ∧ ¬ (List.count "B" ["B", "B"] ≤ 1) := by
  constructor
  · rfl
  · decide

/-- **C1 (amended).** For every router block and context whose workflow
resolves every outgoing edge's target, the candidate descriptor list consists
of the targets of the router's outgoing edges, in edge order, excluding every
direct predecessor of the router — with one descriptor per edge, so duplicate
target ids are **not** collapsed (a duplicated outgoing edge yields a
duplicated descriptor). -/
theorem router_candidate_list_amended (block : SerializedBlock)
    (ctx : ExecutionContext) (wf : SerializedWorkflow)
    (hwf : ctx.workflow = some wf)
    (hres : ∀ conn ∈ wf.connections, conn.source = block.id →
      ∃ tb ∈ wf.blocks, tb.id = conn.target) :
    ∃ infos, getTargetBlocks block ctx = .ok (some infos)
      ∧ infos.map (·.id) =
          ((wf.connections.filter (fun c => c.source == block.id)).map (·.target)).filter
            (fun t => !(((wf.connections.filter (fun c => c.target == block.id)).map
              (·.source)).contains t)) := by
  obtain ⟨infos, hinfos, hids⟩ := resolveTargets_ok wf ctx
    (wf.connections.filter (fun c => c.source == block.id))
    (by
      intro conn hc
      rw [List.mem_filter] at hc
      exact hres conn hc.1 (by simpa using hc.2))
  refine ⟨infos.filter (fun info =>
    !(((wf.connections.filter (fun c => c.target == block.id)).map (·.source)).contains
      info.id)), ?_, ?_⟩
  · simp only [getTargetBlocks, hwf]
    rw [hinfos]
    rfl
  · rw [← hids]
    exact map_id_filter _ infos

/-- Witness for C1's amended theorem: the spec's own example — edges
`X→A` (router `A`), `A→B`, `A→C` give candidates `[B, C]` and `X` is
excluded. -/
theorem router_candidate_list_amended_witness :
    ∃ infos, getTargetBlocks
        ⟨"A", some ⟨"vyin_intent_router", some "Router", none⟩, ⟨none, []⟩, []⟩
        { workflowId := "wf", workspaceId := none
          workflow := some
            { blocks :=
                [⟨"A", some ⟨"vyin_intent_router", some "Router", none⟩, ⟨none, []⟩, []⟩,
                 ⟨"B", some ⟨"agent", some "B", none⟩, ⟨none, []⟩, []⟩,
                 ⟨"C", some ⟨"agent", some "C", none⟩, ⟨none, []⟩, []⟩,
                 ⟨"X", some ⟨"starter", some "X", none⟩, ⟨none, []⟩, []⟩]
              connections := [⟨"X", "A"⟩, ⟨"A", "B"⟩, ⟨"A", "C"⟩, ⟨"A", "X"⟩] }
          blockStates := [] } = .ok (some infos)
      ∧ infos.map (·.id) = ["B", "C"] := by
  obtain ⟨infos, h1, h2⟩ := router_candidate_list_amended
    ⟨"A", some ⟨"vyin_intent_router", some "Router", none⟩, ⟨none, []⟩, []⟩
    { workflowId := "wf", workspaceId := none
      workflow := some
        { blocks :=
            [⟨"A", some ⟨"vyin_intent_router", some "Router", none⟩, ⟨none, []⟩, []⟩,
             ⟨"B", some ⟨"agent", some "B", none⟩, ⟨none, []⟩, []⟩,
             ⟨"C", some ⟨"agent", some "C", none⟩, ⟨none, []⟩, []⟩,
             ⟨"X", some ⟨"starter", some "X", none⟩, ⟨none, []⟩, []⟩]
          connections := [⟨"X", "A"⟩, ⟨"A", "B"⟩, ⟨"A", "C"⟩, ⟨"A", "X"⟩] }
      blockStates := [] }
    _ rfl (by decide)
  refine ⟨infos, h1, ?_⟩
  rw [h2]
  rfl

/-! ## C4 / C5 — routing decision -/

/-- **C4.** When the gateway call succeeds, the response's entire text,
trimmed and lower-cased (`normalizeResponse`), is compared for exact equality
against the candidate ids; on a match the router returns the selected block's
id, its type and its title in `selectedPath`. -/
theorem router_match_selects_block (block : SerializedBlock)
    (inputs : RouterInputs) (ctx : ExecutionContext) (tools : List String)
    (toolResult : ToolResult) (tbs : List TargetBlockInfo)
    (chosen : TargetBlockInfo) (ty ti : String)
    (htb : getTargetBlocks block ctx = .ok (some tbs))
    (htool : tools.contains (jsOr block.config.tool "vyin_bot_assistant") = true)
    (hbp : jsTrim (jsOr inputs.botProfile "") ≠ "")
    (hui : jsOr inputs.userInput "" ≠ "")
    (happ : jsTrim ((getVyinChatTriggerPayload ctx).app_id.getD "") ≠ "")
    (htok : jsTrim ((getVyinChatTriggerPayload ctx).api_token.getD "") ≠ "")
    (hsucc : toolResult.success = true)
    (hfind : tbs.find? (fun b => b.id == normalizeResponse toolResult) = some chosen)
    (hty : chosen.type = some ty) (hty' : ty ≠ "")
    (hti : chosen.title = some ti) (hti' : ti ≠ "") :
    routerExecute block inputs ctx tools toolResult =
      .ok { userInput := jsOr inputs.userInput ""
            selectedPath := { blockId := chosen.id, blockType := ty, blockTitle := ti } } := by
  simp only [routerExecute, htb, Except.mapError, bind, Except.bind, htool,
    Bool.not_true, Bool.false_eq_true, if_false, if_neg hbp, if_neg hui,
    if_neg happ, if_neg htok, hsucc, Option.getD_some, hfind, pure, Except.pure]
  simp [jsOr, hty, hty', hti, hti']

/-- **C5.** When the gateway call succeeds but the normalized response
matches no candidate id, the router fails with the invalid-routing-decision
error (no retry, no default path); in particular, with an empty candidate
set it fails this way for every successful gateway response. -/
theorem router_no_match_invalid_decision (block : SerializedBlock)
    (inputs : RouterInputs) (ctx : ExecutionContext) (tools : List String)
    (tbs : List TargetBlockInfo)
    (htb : getTargetBlocks block ctx = .ok (some tbs))
    (htool : tools.contains (jsOr block.config.tool "vyin_bot_assistant") = true)
    (hbp : jsTrim (jsOr inputs.botProfile "") ≠ "")
    (hui : jsOr inputs.userInput "" ≠ "")
    (happ : jsTrim ((getVyinChatTriggerPayload ctx).app_id.getD "") ≠ "")
    (htok : jsTrim ((getVyinChatTriggerPayload ctx).api_token.getD "") ≠ "") :
    (∀ toolResult : ToolResult, toolResult.success = true →
      tbs.find? (fun b => b.id == normalizeResponse toolResult) = none →
      routerExecute block inputs ctx tools toolResult =
        .error (.invalidRoutingDecision (normalizeResponse toolResult)))
    ∧ (tbs = [] → ∀ toolResult : ToolResult, toolResult.success = true →
      routerExecute block inputs ctx tools toolResult =
        .error (.invalidRoutingDecision (normalizeResponse toolResult))) := by
  have main : ∀ toolResult : ToolResult, toolResult.success = true →
      tbs.find? (fun b => b.id == normalizeResponse toolResult) = none →
      routerExecute block inputs ctx tools toolResult =
        .error (.invalidRoutingDecision (normalizeResponse toolResult)) := by
    intro toolResult hsucc hfind
    simp only [routerExecute, htb, Except.mapError, bind, Except.bind, htool,
      Bool.not_true, Bool.false_eq_true, if_false, if_neg hbp, if_neg hui,
      if_neg happ, if_neg htok, hsucc, Option.getD_some, hfind, pure, Except.pure]
    rfl
  refine ⟨main, ?_⟩
  rintro rfl toolResult hsucc
  exact main toolResult hsucc (by simp)

/-- Witness for C4: candidate id `abc`, gateway response `" ABC \n"`;
the normalized response selects block `abc`. -/
theorem router_match_selects_block_witness :
    routerExecute
      ⟨"R", some ⟨"vyin_intent_router", some "Router", none⟩, ⟨none, []⟩, []⟩
      ⟨some "bot1", some "hello", none⟩
      { workflowId := "w", workspaceId := none
        workflow := some
          { blocks :=
              [⟨"V", some ⟨"vyin_chatbot", some "Chat", none⟩, ⟨none, []⟩, []⟩,
               ⟨"R", some ⟨"vyin_intent_router", some "Router", none⟩, ⟨none, []⟩, []⟩,
               ⟨"abc", some ⟨"agent", some "ABC", none⟩, ⟨none, []⟩, []⟩]
            connections := [⟨"V", "R"⟩, ⟨"R", "abc"⟩] }
        blockStates := [("V", [("app_id", "app1"), ("api_token", "tok")])] }
      ["vyin_bot_assistant"] ⟨true, some " ABC \n", none⟩
      = .ok { userInput := "hello"
              selectedPath := { blockId := "abc", blockType := "agent", blockTitle := "ABC" } } := by
  have h := router_match_selects_block
    ⟨"R", some ⟨"vyin_intent_router", some "Router", none⟩, ⟨none, []⟩, []⟩
    ⟨some "bot1", some "hello", none⟩
    { workflowId := "w", workspaceId := none
      workflow := some
        { blocks :=
            [⟨"V", some ⟨"vyin_chatbot", some "Chat", none⟩, ⟨none, []⟩, []⟩,
             ⟨"R", some ⟨"vyin_intent_router", some "Router", none⟩, ⟨none, []⟩, []⟩,
             ⟨"abc", some ⟨"agent", some "ABC", none⟩, ⟨none, []⟩, []⟩]
          connections := [⟨"V", "R"⟩, ⟨"R", "abc"⟩] }
      blockStates := [("V", [("app_id", "app1"), ("api_token", "tok")])] }
    ["vyin_bot_assistant"] ⟨true, some " ABC \n", none⟩
    [⟨"abc", some "agent", some "ABC", none, [("systemPrompt", "")], none⟩]
    ⟨"abc", some "agent", some "ABC", none, [("systemPrompt", "")], none⟩
    "agent" "ABC"
    (by rfl) (by decide) (by decide) (by decide) (by decide) (by decide)
    (by decide) (by decide) (by decide) (by decide) (by decide) (by decide)
  rw [h]
  rfl

/-- Witness for C5: empty candidate set after predecessor exclusion,
arbitrary successful response `"xyz"` — always an invalid routing decision. -/
theorem router_no_match_invalid_decision_witness :
    routerExecute
      ⟨"R", some ⟨"vyin_intent_router", some "Router", none⟩, ⟨none, []⟩, []⟩
      ⟨some "bot1", some "hello", none⟩
      { workflowId := "w", workspaceId := none
        workflow := some
          { blocks :=
              [⟨"V", some ⟨"vyin_chatbot", some "Chat", none⟩, ⟨none, []⟩, []⟩,
               ⟨"R", some ⟨"vyin_intent_router", some "Router", none⟩, ⟨none, []⟩, []⟩]
            connections := [⟨"V", "R"⟩] }
        blockStates := [("V", [("app_id", "app1"), ("api_token", "tok")])] }
      ["vyin_bot_assistant"] ⟨true, some "xyz", none⟩
      = .error (.invalidRoutingDecision "xyz") := by
  have h := (router_no_match_invalid_decision
    ⟨"R", some ⟨"vyin_intent_router", some "Router", none⟩, ⟨none, []⟩, []⟩
    ⟨some "bot1", some "hello", none⟩
    { workflowId := "w", workspaceId := none
      workflow := some
        { blocks :=
            [⟨"V", some ⟨"vyin_chatbot", some "Chat", none⟩, ⟨none, []⟩, []⟩,
             ⟨"R", some ⟨"vyin_intent_router", some "Router", none⟩, ⟨none, []⟩, []⟩]
          connections := [⟨"V", "R"⟩] }
      blockStates := [("V", [("app_id", "app1"), ("api_token", "tok")])] }
    ["vyin_bot_assistant"] []
    (by rfl) (by decide) (by decide) (by decide) (by decide) (by decide)).2
    rfl ⟨true, some "xyz", none⟩ (by decide)
  rw [h]
  rfl

/-! ## C2 / C3 — deployment activation -/

theorem countP_congr_mem {α : Type} (p q : α → Bool) (l : List α)
    (h : ∀ x ∈ l, p x = q x) : l.countP p = l.countP q := by
  induction l with
  | nil => rfl
  | cons a l ih =>
    simp only [List.countP_cons, h a (by simp)]
    rw [ih (fun x hx => h x (by simp [hx]))]

/-- Rows after clear-then-set, elementwise: the two drizzle updates are maps,
so their composition is a map of the composed row update. -/
theorem clear_set_eq_map (wid : String) (v : Int) (rows : List DeploymentRow) :
    setActiveRows wid v (clearActiveRows wid rows) =
      rows.map (fun r =>
        (fun r' => if r'.workflowId = wid ∧ r'.version = v then { r' with isActive := true } else r')
          ((fun r' => if r'.workflowId = wid ∧ r'.isActive = true then { r' with isActive := false } else r') r)) := by
  simp [setActiveRows, clearActiveRows, List.map_map, Function.comp]

theorem active_iff_target (wid : String) (v : Int) (rows : List DeploymentRow) :
    ∀ r' ∈ setActiveRows wid v (clearActiveRows wid rows),
      r'.workflowId = wid → (r'.isActive = true ↔ r'.version = v) := by
  intro r' hmem
  rw [clear_set_eq_map] at hmem
  obtain ⟨r, hr, rfl⟩ := List.mem_map.mp hmem
  by_cases hw : r.workflowId = wid
  · by_cases hv : r.version = v
    · by_cases ha : r.isActive = true <;> simp [hw, hv, ha]
    · by_cases ha : r.isActive = true <;> simp [hw, hv, ha]
  · by_cases hv : r.version = v <;> by_cases ha : r.isActive = true <;>
      simp [hw, hv, ha]

theorem countActive_after_target (wid : String) (v : Int) (rows : List DeploymentRow) :
    countActive (setActiveRows wid v (clearActiveRows wid rows)) wid =
      rows.countP (fun r => r.workflowId == wid && r.version == v) := by
  rw [clear_set_eq_map, countActive, List.countP_map]
  refine countP_congr_mem _ _ rows (fun r _ => ?_)
  by_cases hw : r.workflowId = wid
  · by_cases hv : r.version = v
    · by_cases ha : r.isActive = true <;> simp [Function.comp, hw, hv, ha]
    · by_cases ha : r.isActive = true <;> simp [Function.comp, hw, hv, ha]
  · by_cases hv : r.version = v <;> by_cases ha : r.isActive = true <;>
      simp [Function.comp, hw, hv, ha]

theorem countActive_after_other (wid : String) (v : Int) (rows : List DeploymentRow)
    (w : String) (hw : w ≠ wid) :
    countActive (setActiveRows wid v (clearActiveRows wid rows)) w =
      countActive rows w := by
  rw [clear_set_eq_map, countActive, List.countP_map, countActive]
  refine countP_congr_mem _ _ rows (fun r _ => ?_)
  by_cases hww : r.workflowId = wid
  · have hne : r.workflowId ≠ w := by
      rw [hww]
      exact fun hh => hw hh.symm
    by_cases hv : r.version = v <;> by_cases ha : r.isActive = true <;>
      simp [Function.comp, hww, hv, ha, hne, Ne.symm hw]
  · by_cases hv : r.version = v <;> by_cases ha : r.isActive = true <;>
      simp [Function.comp, hww, hv, ha]

theorem matched_length_after_clear (wid : String) (v : Int) (rows : List DeploymentRow) :
    (activateMatchedRows wid v (clearActiveRows wid rows)).length =
      rows.countP (fun r => r.workflowId == wid && r.version == v) := by
  rw [activateMatchedRows, ← List.countP_eq_length_filter, clearActiveRows,
    List.countP_map]
  refine countP_congr_mem _ _ rows (fun r _ => ?_)
  by_cases hw : r.workflowId = wid
  · by_cases ha : r.isActive = true <;> simp [Function.comp, hw, ha]
  · by_cases ha : r.isActive = true <;> simp [Function.comp, hw, ha]

/-- **C2.** A successful `activate(workflowId, version)` — one transaction —
clears `isActive` on every other row of the workflow, sets it on the row
matching `(workflowId, version)`, and marks the parent workflow deployed with
the deployment timestamp; afterwards at most one row per `workflowId` is
active (for other workflows the count is untouched). -/
theorem activate_success_effects (wid : String) (v : Int) (now : Nat) (s : DbState)
    (hexists : ∃ r ∈ s.deployments, r.workflowId = wid ∧ r.version = v)
    (huniq : s.deployments.countP (fun r => r.workflowId == wid && r.version == v) ≤ 1)
    (hinv : ∀ w, countActive s.deployments w ≤ 1) :
    activateTx wid v now s = .ok
        { deployments := setActiveRows wid v (clearActiveRows wid s.deployments)
          workflows := markDeployed wid now s.workflows }
      ∧ (∀ r ∈ setActiveRows wid v (clearActiveRows wid s.deployments),
          r.workflowId = wid → (r.isActive = true ↔ r.version = v))
      ∧ (∃ r ∈ setActiveRows wid v (clearActiveRows wid s.deployments),
          r.workflowId = wid ∧ r.version = v ∧ r.isActive = true)
      ∧ (∀ w, countActive (setActiveRows wid v (clearActiveRows wid s.deployments)) w ≤ 1)
      ∧ (∀ w ∈ markDeployed wid now s.workflows,
          w.id = wid → w.isDeployed = true ∧ w.deployedAt = some now) := by
  have hpos : 0 < s.deployments.countP (fun r => r.workflowId == wid && r.version == v) := by
    rw [List.countP_pos_iff]
    obtain ⟨r, hr, h1, h2⟩ := hexists
    exact ⟨r, hr, by simp [h1, h2]⟩
  have hne : ¬ ((activateMatchedRows wid v (clearActiveRows wid s.deployments)).length = 0) := by
    rw [matched_length_after_clear]
    omega
  refine ⟨?_, active_iff_target wid v s.deployments, ?_, ?_, ?_⟩
  · simp only [activateTx, if_neg hne]
  · obtain ⟨r, hr, h1, h2⟩ := hexists
    refine ⟨(fun r' => if r'.workflowId = wid ∧ r'.version = v then { r' with isActive := true } else r')
      ((fun r' => if r'.workflowId = wid ∧ r'.isActive = true then { r' with isActive := false } else r') r),
      ?_, ?_⟩
    · rw [clear_set_eq_map]
      exact List.mem_map_of_mem _ hr
    · by_cases ha : r.isActive = true <;> simp [h1, h2, ha]
  · intro w
    by_cases hw : w = wid
    · rw [hw, countActive_after_target]
      exact huniq
    · rw [countActive_after_other wid v s.deployments w hw]
      exact hinv w
  · intro w' hmem hid
    rw [markDeployed] at hmem
    obtain ⟨w, hw, rfl⟩ := List.mem_map.mp hmem
    by_cases h : w.id = wid
    · simp [h]
    · simp only [if_neg h] at hid ⊢
      exact absurd hid h

/-- Witness for C2 at a concrete database: workflow `W` with versions 3
(active) and 5; `activate(W, 5)` flips 3 off, 5 on, and marks `W` deployed. -/
theorem activate_success_effects_witness :
    activateTx "W" 5 1234
        { deployments := [⟨"d3", "W", 3, "v3", true⟩, ⟨"d5", "W", 5, "v5", false⟩]
          workflows := [⟨"W", false, none⟩] }
      = .ok { deployments := [⟨"d3", "W", 3, "v3", false⟩, ⟨"d5", "W", 5, "v5", true⟩]
              workflows := [⟨"W", true, some 1234⟩] } := by
  have h := (activate_success_effects "W" 5 1234
    { deployments := [⟨"d3", "W", 3, "v3", true⟩, ⟨"d5", "W", 5, "v5", false⟩]
      workflows := [⟨"W", false, none⟩] }
    ⟨⟨"d5", "W", 5, "v5", false⟩, by simp, rfl, rfl⟩
    (by decide)
    (by
      intro w
      by_cases hw : ("W" : String) = w
      · subst hw; decide
      · simp [countActive, List.countP_cons, List.countP_nil, hw])).1
  rw [h]
  rfl

/-- **C3.** `activate` with a version that has no matching row fails the
transaction with the version-not-found error, and the rollback leaves the
database exactly as before — the prior active version stays the sole active
one and the workflow's deployed flag and timestamp are unchanged. -/
theorem activate_missing_version_rolls_back (wid : String) (v : Int) (now : Nat)
    (s : DbState)
    (hnone : ∀ r ∈ s.deployments, ¬ (r.workflowId = wid ∧ r.version = v)) :
    activateTx wid v now s = .error "Deployment version not found"
    ∧ runActivate wid v now s = s := by
  have hzero : s.deployments.countP (fun r => r.workflowId == wid && r.version == v) = 0 := by
    rw [List.countP_eq_zero]
    intro r hr
    have := hnone r hr
    simp only [Bool.and_eq_true, beq_iff_eq]
    tauto
  have hlen : (activateMatchedRows wid v (clearActiveRows wid s.deployments)).length = 0 := by
    rw [matched_length_after_clear, hzero]
  have herr : activateTx wid v now s = .error "Deployment version not found" := by
    simp [activateTx, hlen]
  exact ⟨herr, by rw [runActivate, herr]⟩

/-- Witness for C3: `activate(W, 99)` with only version 3 present errors and
leaves the state unchanged. -/
theorem activate_missing_version_rolls_back_witness :
    activateTx "W" 99 1234
        { deployments := [⟨"d3", "W", 3, "v3", true⟩], workflows := [⟨"W", true, some 7⟩] }
      = .error "Deployment version not found"
    ∧ runActivate "W" 99 1234
        { deployments := [⟨"d3", "W", 3, "v3", true⟩], workflows := [⟨"W", true, some 7⟩] }
      = { deployments := [⟨"d3", "W", 3, "v3", true⟩], workflows := [⟨"W", true, some 7⟩] } :=
  activate_missing_version_rolls_back "W" 99 1234
    { deployments := [⟨"d3", "W", 3, "v3", true⟩], workflows := [⟨"W", true, some 7⟩] }
    (by decide)

/-! ## C6 — deployment-version rename -/

/-- **C6.** `rename(workflowId, version, name)`: a trimmed name of length 0
or over 100 fails with a 400 validation error and changes no row; with a
valid trimmed length (1–100, so length exactly 100 included) it fails 404
when no row matches `(workflowId, version)`, and otherwise answers 200 and
updates only the `name` field of the matching row, leaving every other field
and row (and the workflow table) unchanged. -/
theorem rename_behavior (wid : String) (v : Int) (name : String) (s : DbState) :
    ((jsTrim name).length = 0 ∨ (jsTrim name).length > 100 →
      (renameRoute wid v name s).fst = s ∧ (renameRoute wid v name s).snd.status = 400)
    ∧ ((∀ r ∈ s.deployments, ¬ (r.workflowId = wid ∧ r.version = v)) →
        1 ≤ (jsTrim name).length → (jsTrim name).length ≤ 100 →
        renameRoute wid v name s =
          (s, createErrorResponse "Deployment version not found" 404))
    ∧ ((∃ r ∈ s.deployments, r.workflowId = wid ∧ r.version = v) →
        1 ≤ (jsTrim name).length → (jsTrim name).length ≤ 100 →
        (renameRoute wid v name s).snd.status = 200
        ∧ (renameRoute wid v name s).fst.workflows = s.workflows
        ∧ List.Forall₂ (fun r r' =>
            (r.workflowId = wid ∧ r.version = v → r' = { r with name := jsTrim name })
            ∧ (¬ (r.workflowId = wid ∧ r.version = v) → r' = r))
          s.deployments (renameRoute wid v name s).fst.deployments) := by
  refine ⟨?_, ?_, ?_⟩
  · intro h
    rcases h with h0 | h100
    · simp [renameRoute, h0, createErrorResponse]
    · have hne0 : ¬ ((jsTrim name).length = 0) := by omega
      simp [renameRoute, hne0, h100, createErrorResponse]
  · intro hnone h1 h2
    have hne0 : ¬ ((jsTrim name).length = 0) := by omega
    have hle : ¬ ((jsTrim name).length > 100) := by omega
    have hfilter : s.deployments.filter
        (fun r => r.workflowId == wid && r.version == v) = [] := by
      refine List.filter_eq_nil_iff.mpr (fun r hr => ?_)
      have := hnone r hr
      simp only [Bool.and_eq_true, beq_iff_eq]
      tauto
    simp [renameRoute, hne0, hle, hfilter]
  · intro hex h1 h2
    have hne0 : ¬ ((jsTrim name).length = 0) := by omega
    have hle : ¬ ((jsTrim name).length > 100) := by omega
    have hfilter : s.deployments.filter
        (fun r => r.workflowId == wid && r.version == v) ≠ [] := by
      intro hemp
      obtain ⟨r, hr, hA, hB⟩ := hex
      have := List.filter_eq_nil_iff.mp hemp r hr
      simp [hA, hB] at this
    obtain ⟨a, as, hm⟩ : ∃ a as, s.deployments.filter
        (fun r => r.workflowId == wid && r.version == v) = a :: as := by
      cases hmm : s.deployments.filter
          (fun r => r.workflowId == wid && r.version == v) with
      | nil => exact absurd hmm hfilter
      | cons a as => exact ⟨a, as, rfl⟩
    refine ⟨?_, ?_, ?_⟩
    · simp [renameRoute, hne0, hle, hm, createSuccessResponse]
    · simp [renameRoute, hne0, hle, hm]
    · have hfst : (renameRoute wid v name s).fst.deployments =
          s.deployments.map (fun r =>
            if r.workflowId = wid ∧ r.version = v then { r with name := jsTrim name } else r) := by
        simp [renameRoute, hne0, hle, hm]
      rw [hfst, List.forall₂_map_right_iff]
      refine List.forall₂_same.mpr (fun r _ => ?_)
      by_cases hr : r.workflowId = wid ∧ r.version = v
      · simp [hr]
      · simp [hr]

/-- Witness for C6 at a concrete row: empty name gives 400, missing version
gives 404, a 100-character name on an existing row gives 200. -/
theorem rename_behavior_witness :
    ((renameRoute "W" 3 ""
        { deployments := [⟨"d3", "W", 3, "old", true⟩], workflows := [⟨"W", true, some 7⟩] }).snd.status
      = 400)
    ∧ (renameRoute "W" 99 "fine"
        { deployments := [⟨"d3", "W", 3, "old", true⟩], workflows := [⟨"W", true, some 7⟩] }
      = ({ deployments := [⟨"d3", "W", 3, "old", true⟩], workflows := [⟨"W", true, some 7⟩] },
          createErrorResponse "Deployment version not found" 404))
    ∧ ((renameRoute "W" 3
        "aaaaaaaaaaaaaaaaaaaaaaaaaaaaaaaaaaaaaaaaaaaaaaaaaaaaaaaaaaaaaaaaaaaaaaaaaaaaaaaaaaaaaaaaaaaaaaaaaaaa"
        { deployments := [⟨"d3", "W", 3, "old", true⟩], workflows := [⟨"W", true, some 7⟩] }).snd.status
      = 200) := by
  refine ⟨?_, ?_, ?_⟩
  · exact ((rename_behavior "W" 3 ""
      { deployments := [⟨"d3", "W", 3, "old", true⟩], workflows := [⟨"W", true, some 7⟩] }).1
      (by decide)).2
  · exact (rename_behavior "W" 99 "fine"
      { deployments := [⟨"d3", "W", 3, "old", true⟩], workflows := [⟨"W", true, some 7⟩] }).2.1
      (by decide) (by decide) (by decide)
  · exact ((rename_behavior "W" 3
      "aaaaaaaaaaaaaaaaaaaaaaaaaaaaaaaaaaaaaaaaaaaaaaaaaaaaaaaaaaaaaaaaaaaaaaaaaaaaaaaaaaaaaaaaaaaaaaaaaaaa"
      { deployments := [⟨"d3", "W", 3, "old", true⟩], workflows := [⟨"W", true, some 7⟩] }).2.2
      ⟨⟨"d3", "W", 3, "old", true⟩, by simp, rfl, rfl⟩ (by decide) (by decide)).1

/-! ## C7 — HTTP status of activate on a missing version -/

/-- **C7 (code bug).** The spec's HTTP surface says activating a missing
deployment version answers 404.  The route's transaction throws
`"Deployment version not found"`, but the catch-all maps every error to
`createErrorResponse(error.message, 500)`: the observed status is 500,
not 404 (the sibling GET/PATCH routes answer 404 for the same condition). -/
theorem activate_missing_version_http_500 :
    activateRoute "W" 99 1000
        { deployments := [⟨"d1", "W", 3, "v3", true⟩], workflows := [⟨"W", true, some 500⟩] }
      = ({ deployments := [⟨"d1", "W", 3, "v3", true⟩], workflows := [⟨"W", true, some 500⟩] },
         createErrorResponse "Deployment version not found" 500)
    ∧ (createErrorResponse "Deployment version not found" 500).status ≠ 404 := by
  exact ⟨rfl, by decide⟩

/-! ## C8 — GIM identifier quoting -/

theorem data_append (s t : String) : (s ++ t).data = s.data ++ t.data := rfl

theorem matchLiteral_self (key t : List Char) : matchLiteral key (key ++ t) = some t := by
  induction key with
  | nil => rfl
  | cons k ks ih => simp [matchLiteral, ih]

theorem definitelyMismatch_none {key b : List Char} (h : definitelyMismatch key b = true)
    (rest : List Char) : matchLiteral key (b ++ rest) = none := by
  induction key generalizing b with
  | nil => simp [definitelyMismatch] at h
  | cons k ks ih =>
    cases b with
    | nil => simp [definitelyMismatch] at h
    | cons c cs =>
      simp only [definitelyMismatch] at h
      by_cases hc : c = k
      · simp only [if_pos hc] at h
        simp [matchLiteral, hc, ih h]
      · simp [matchLiteral, hc]

theorem quoteIntField_nil (key : List Char) : quoteIntField key [] = [] := by
  rw [quoteIntField]

theorem quoteIntField_cons_none {key : List Char} {c : Char} {cs : List Char}
    (h : matchLiteral key (c :: cs) = none) :
    quoteIntField key (c :: cs) = c :: quoteIntField key cs := by
  rw [quoteIntField, h]

theorem quoteIntField_cons_digits {key : List Char} {c : Char} {cs rest : List Char}
    (h : matchLiteral key (c :: cs) = some rest)
    (hds : (rest.dropWhile jsWhitespace).takeWhile Char.isDigit ≠ []) :
    quoteIntField key (c :: cs) =
      key ++ ('"' :: (rest.dropWhile jsWhitespace).takeWhile Char.isDigit) ++
        ('"' :: quoteIntField key ((rest.dropWhile jsWhitespace).dropWhile Char.isDigit)) := by
  rw [quoteIntField, h]
  simp only [dif_neg hds]

theorem quoteIntField_skip {key : List Char} (m rest : List Char)
    (h : keyCleanSeg key m = true) :
    quoteIntField key (m ++ rest) = m ++ quoteIntField key rest := by
  induction m with
  | nil => simp
  | cons c cs ih =>
    simp only [keyCleanSeg, Bool.and_eq_true] at h
    obtain ⟨h1, h2⟩ := h
    have hnone : matchLiteral key (c :: (cs ++ rest)) = none := by
      cases key with
      | nil => simp at h1
      | cons k ks =>
        by_cases hc : c = k
        · simp only [if_pos hc] at h1
          have := definitelyMismatch_none h1 rest
          simpa using this
        · simp [matchLiteral, hc]
    rw [List.cons_append, quoteIntField_cons_none hnone, ih h2]
    rfl

theorem takeWhile_append_of_all {p : Char → Bool} {xs ys : List Char}
    (hxs : ∀ c ∈ xs, p c = true) (hys : ys.takeWhile p = []) :
    (xs ++ ys).takeWhile p = xs := by
  induction xs with
  | nil =>
    simp only [List.nil_append]
    exact hys
  | cons x xs ih =>
    have hx := hxs x (by simp)
    simp [List.takeWhile_cons, hx, ih (fun c hc => hxs c (by simp [hc]))]

theorem dropWhile_append_of_all {p : Char → Bool} {xs ys : List Char}
    (hxs : ∀ c ∈ xs, p c = true) (hys : ys.takeWhile p = []) :
    (xs ++ ys).dropWhile p = ys := by
  induction xs with
  | nil =>
    cases ys with
    | nil => rfl
    | cons y ys =>
      by_cases hy : p y = true
      · simp [List.takeWhile_cons, hy] at hys
      · simp [List.dropWhile_cons, hy]
  | cons x xs ih =>
    have hx := hxs x (by simp)
    simp [List.dropWhile_cons, hx, ih (fun c hc => hxs c (by simp [hc]))]

theorem digit_not_ws {c : Char} (h : c.isDigit = true) : jsWhitespace c = false := by
  by_contra hw
  rw [Bool.not_eq_false] at hw
  simp only [jsWhitespace, Bool.or_eq_true, beq_iff_eq] at hw
  rcases hw with ((((rfl | rfl) | rfl) | rfl) | rfl) | rfl <;> exact absurd h (by decide)

theorem digit_ne_quote {c : Char} (h : c.isDigit = true) : c ≠ '"' := by
  intro hc
  subst hc
  exact absurd h (by decide)

theorem quoteIntField_match_raw {key t : List Char} (hkey : key ≠ [])
    (hds : (t.dropWhile jsWhitespace).takeWhile Char.isDigit ≠ []) :
    quoteIntField key (key ++ t) =
      key ++ ('"' :: (t.dropWhile jsWhitespace).takeWhile Char.isDigit) ++
        ('"' :: quoteIntField key ((t.dropWhile jsWhitespace).dropWhile Char.isDigit)) := by
  cases key with
  | nil => exact absurd rfl hkey
  | cons k kt =>
    have hm : matchLiteral (k :: kt) (k :: (kt ++ t)) = some t := matchLiteral_self (k :: kt) t
    have := quoteIntField_cons_digits hm hds
    simpa using this

theorem quoteIntField_match {key ws ds rest : List Char} (hkey : key ≠ [])
    (hws : ∀ c ∈ ws, jsWhitespace c = true)
    (hds : ∀ c ∈ ds, Char.isDigit c = true) (hne : ds ≠ [])
    (hrest : rest.takeWhile Char.isDigit = []) :
    quoteIntField key (key ++ (ws ++ (ds ++ rest)))
      = key ++ ('"' :: ds) ++ ('"' :: quoteIntField key rest) := by
  have hdsws : (ds ++ rest).takeWhile jsWhitespace = [] := by
    cases ds with
    | nil => exact absurd rfl hne
    | cons d ds' =>
      have hd : jsWhitespace d = false := digit_not_ws (hds d (by simp))
      simp [List.takeWhile_cons, hd]
  have hdrop : (ws ++ (ds ++ rest)).dropWhile jsWhitespace = ds ++ rest :=
    dropWhile_append_of_all hws hdsws
  have htake : (ds ++ rest).takeWhile Char.isDigit = ds := takeWhile_append_of_all hds hrest
  have hdrop2 : (ds ++ rest).dropWhile Char.isDigit = rest := dropWhile_append_of_all hds hrest
  have hne2 : ((ws ++ (ds ++ rest)).dropWhile jsWhitespace).takeWhile Char.isDigit ≠ [] := by
    rw [hdrop, htake]
    exact hne
  rw [quoteIntField_match_raw hkey hne2, hdrop, htake, hdrop2]

theorem quoteIntField_skip_no_quote {kt : List Char} (m rest : List Char)
    (hm : ∀ c ∈ m, c ≠ '"') :
    quoteIntField ('"' :: kt) (m ++ rest) = m ++ quoteIntField ('"' :: kt) rest := by
  induction m with
  | nil => simp
  | cons c cs ih =>
    have hc : c ≠ '"' := hm c (by simp)
    have hnone : matchLiteral ('"' :: kt) (c :: (cs ++ rest)) = none := by
      simp [matchLiteral, hc]
    rw [List.cons_append, quoteIntField_cons_none hnone,
      ih (fun x hx => hm x (by simp [hx]))]
    rfl

theorem quoteIntField_skip_quoted_digits {k2 : Char} {kt : List Char} (ds rest : List Char)
    (hk2 : k2.isDigit = false) (hds : ∀ c ∈ ds, Char.isDigit c = true) (hne : ds ≠ []) :
    quoteIntField ('"' :: k2 :: kt) (('"' :: ds) ++ rest)
      = ('"' :: ds) ++ quoteIntField ('"' :: k2 :: kt) rest := by
  cases ds with
  | nil => exact absurd rfl hne
  | cons d ds' =>
    have hd : d.isDigit = true := hds d (by simp)
    have hdk : d ≠ k2 := by
      intro h
      rw [h, hk2] at hd
      exact absurd hd (by simp)
    have hnone : matchLiteral ('"' :: k2 :: kt) ('"' :: ((d :: ds') ++ rest)) = none := by
      simp [matchLiteral, hdk]
    have hrw : (('"' :: (d :: ds')) ++ rest) = '"' :: ((d :: ds') ++ rest) := rfl
    rw [hrw, quoteIntField_cons_none hnone,
      quoteIntField_skip_no_quote (d :: ds') rest (fun c hc => digit_ne_quote (hds c hc))]
    rfl

/-- **C8.** For a GIM bot-list body in which `bot_id` and `license_id` appear
as unquoted integer literals (arbitrary digit strings, of any length — in
particular beyond `Number.MAX_SAFE_INTEGER`), the route's pre-parse quoting
turns each into a JSON string literal carrying exactly the same digit string,
so the endpoint returns the identifier with no precision loss. -/
theorem gim_bot_ids_exact_after_fix (botId licenseId : String)
    (hb1 : botId.data ≠ []) (hb2 : ∀ c ∈ botId.data, Char.isDigit c = true)
    (hl1 : licenseId.data ≠ []) (hl2 : ∀ c ∈ licenseId.data, Char.isDigit c = true) :
    fixGimResponseText (gimBotsBody botId licenseId) = gimBotsBodyQuoted botId licenseId := by
  have hbk : botIdKey = '"' :: ("bot_id\":" : String).data := rfl
  have hlk : licenseIdKey = '"' :: 'l' :: ("icense_id\":" : String).data := rfl
  -- the body, decomposed for the first pass
  have hbody : (gimBotsBody botId licenseId).data
      = gimSegA.data ++ (botIdKey ++ ([' '] ++ (botId.data ++
          ((gimSegB.data ++ (licenseIdKey ++ [' '])) ++
            (licenseId.data ++ gimSegC.data))))) := by
    simp [gimBotsBody, data_append, botIdKey, licenseIdKey, List.append_assoc]
  -- first pass: quote the bot_id digits
  have htwR2 : ((gimSegB.data ++ (licenseIdKey ++ [' '])) ++
      (licenseId.data ++ gimSegC.data)).takeWhile Char.isDigit = [] := by
    have hsh : (gimSegB.data ++ (licenseIdKey ++ [' '])) ++
        (licenseId.data ++ gimSegC.data)
        = ',' :: ((gimSegB.data.tail ++ (licenseIdKey ++ [' '])) ++
            (licenseId.data ++ gimSegC.data)) := rfl
    rw [hsh, List.takeWhile_cons, if_neg (by decide)]
  have pass1 : quoteIntField botIdKey (gimBotsBody botId licenseId).data
      = gimSegA.data ++ (botIdKey ++ ('"' :: botId.data) ++
          ('"' :: ((gimSegB.data ++ (licenseIdKey ++ [' '])) ++
            (licenseId.data ++ gimSegC.data)))) := by
    rw [hbody, quoteIntField_skip _ _ (by decide),
      quoteIntField_match (by decide) (by decide) hb2 hb1 htwR2,
      quoteIntField_skip _ _ (by decide)]
    rw [hbk]
    rw [quoteIntField_skip_no_quote _ _ (fun c hc => digit_ne_quote (hl2 c hc))]
    have hC : quoteIntField ('"' :: ("bot_id\":" : String).data) gimSegC.data
        = gimSegC.data := by
      have h := @quoteIntField_skip ('"' :: ("bot_id\":" : String).data)
        gimSegC.data [] (by decide)
      simpa [quoteIntField_nil] using h
    rw [hC]
  -- reshape for the second pass
  have hre : gimSegA.data ++ (botIdKey ++ ('"' :: botId.data) ++
        ('"' :: ((gimSegB.data ++ (licenseIdKey ++ [' '])) ++
          (licenseId.data ++ gimSegC.data))))
      = (gimSegA.data ++ botIdKey) ++ (('"' :: botId.data) ++
          (('"' :: gimSegB.data) ++ (licenseIdKey ++ ([' '] ++
            (licenseId.data ++ gimSegC.data))))) := by
    simp [List.append_assoc]
  -- second pass: quote the license_id digits
  have hC2 : quoteIntField licenseIdKey gimSegC.data = gimSegC.data := by
    have h := @quoteIntField_skip licenseIdKey gimSegC.data [] (by decide)
    simpa [quoteIntField_nil] using h
  have pass2 : quoteIntField licenseIdKey
      ((gimSegA.data ++ botIdKey) ++ (('"' :: botId.data) ++
        (('"' :: gimSegB.data) ++ (licenseIdKey ++ ([' '] ++
          (licenseId.data ++ gimSegC.data))))))
      = (gimSegA.data ++ botIdKey) ++ (('"' :: botId.data) ++
          (('"' :: gimSegB.data) ++ (licenseIdKey ++ ('"' :: licenseId.data) ++
            ('"' :: gimSegC.data)))) := by
    rw [quoteIntField_skip _ _ (by decide)]
    rw [hlk]
    rw [quoteIntField_skip_quoted_digits _ _ (by decide) hb2 hb1]
    rw [show ('"' :: 'l' :: ("icense_id\":" : String).data) = licenseIdKey from rfl]
    rw [quoteIntField_skip _ _ (by decide)]
    rw [quoteIntField_match (by decide) (by decide) hl2 hl1 (by decide), hC2]
  -- assemble
  have hq : (gimBotsBodyQuoted botId licenseId).data
      = (gimSegA.data ++ botIdKey) ++ (('"' :: botId.data) ++
          (('"' :: gimSegB.data) ++ (licenseIdKey ++ ('"' :: licenseId.data) ++
            ('"' :: gimSegC.data)))) := by
    simp [gimBotsBodyQuoted, data_append, botIdKey, licenseIdKey, List.append_assoc]
  have hlist : quoteIntField licenseIdKey
      (quoteIntField botIdKey (gimBotsBody botId licenseId).data)
      = (gimBotsBodyQuoted botId licenseId).data := by
    rw [pass1, hre, pass2, hq]
  calc fixGimResponseText (gimBotsBody botId licenseId)
      = ⟨quoteIntField licenseIdKey
          (quoteIntField botIdKey (gimBotsBody botId licenseId).data)⟩ := rfl
    _ = ⟨(gimBotsBodyQuoted botId licenseId).data⟩ := by rw [hlist]
    _ = gimBotsBodyQuoted botId licenseId := rfl

/-- Witness for C8: `bot_id` is `2^53 + 1` (just past
`Number.MAX_SAFE_INTEGER`) and `license_id` is a 30-digit integer; both
survive the fix as exact digit strings. -/
theorem gim_bot_ids_exact_after_fix_witness :
    fixGimResponseText (gimBotsBody "9007199254740993" "123456789012345678901234567890")
      = gimBotsBodyQuoted "9007199254740993" "123456789012345678901234567890" :=
  gim_bot_ids_exact_after_fix "9007199254740993" "123456789012345678901234567890"
    (by decide) (by decide) (by decide) (by decide)

end Sim
